import Mathlib

/-!
# Verification of the MCP server/client demo (S1LV3RJ1NX/mcp-server-client-demo)

Shallow embedding of the repository's core subsystems and proofs of the
specification's claims about them:

* the tool registry and discovery mechanism of `src/server/tools/__init__.py`
  (`mcp_tool`, `discover_tools`, `get_discovered_tools`);
* the demo tool handlers `divide` (`src/server/tools/calculation.py`) and
  `calculate_fibonacci` (`src/streaming_server/tools/fibonacci.py`);
* the two-round tool-call orchestration loop `MCPClient.process_query`
  (`src/client/openai_client.py`).

Modelling conventions:

* Python's `None`-able strings become `Option String`; Python's truthiness
  coercion in `x or y` (where `None` and `""` are both falsy) is `pyOrStr`.
* Python function objects are modelled by the `PyFunction` type class giving
  access to `__name__`, `__doc__` and `__module__`; concrete handler objects of
  the server tools package are the enumeration `ServerFn`.
* `importlib.import_module` is modelled including the `sys.modules` cache:
  an already-imported module is not re-executed, and a module whose top-level
  execution raises is not cached (CPython removes it from `sys.modules`), while
  registrations it performed before raising remain (no rollback).  Exceptions
  escaping a module import are caught by `discover_tools`'s `try/except`,
  which here is the `Bool` success flag threaded by `execBody`; logging is not
  modelled.
* Python numbers in the calculator tools are IEEE floats; they are modelled by
  `ℚ`, which agrees with float arithmetic at every input the claims mention
  (9/3, 4/0, small integers).  `raise` is the `PyResult.raised` constructor.
* Aliasing of the global registry list (`.copy()` defensive copies) is
  modelled by a small address-based heap `PyHeap` in which Python list objects
  live; the pure functions below are the same code with the single registry
  cell inlined.
-/

namespace MCPDemo

/-- Python `x or default` for an optional string `x`:
`None` and the empty string are falsy and select the default. -/
def pyOrStr (x : Option String) (d : String) : String :=
  match x with
  | none => d
  | some s => if s = "" then d else s

/-- Python `str.strip()`: remove whitespace from both ends.  (Executable
structural recursion over the character list; the repository's docstrings are
ASCII, where this agrees with Python.) -/
def pyStrip (s : String) : String :=
  String.mk
    (((s.data.dropWhile Char.isWhitespace).reverse.dropWhile
        Char.isWhitespace).reverse)

/-- Access to the metadata Python exposes on any function object:
`__name__`, `__doc__` (possibly `None`) and `__module__`. -/
class PyFunction (γ : Type) where
  fname : γ → String
  doc : γ → Option String
  module : γ → String

/-- A Python function object together with its callable behaviour, used where a
claim needs the handler to stay callable (claim C5). -/
structure PyFunc (α β : Type) where
  fname : String
  doc : Option String
  module : String
  call : α → β

instance (α β : Type) : PyFunction (PyFunc α β) where
  fname := PyFunc.fname
  doc := PyFunc.doc
  module := PyFunc.module

/-- One entry of the global `_mcp_tools` registry: the dict
`{"function": f, "name": ..., "description": ..., "module": ...}` appended by
`mcp_tool`'s inner `decorator` (src/server/tools/__init__.py, lines 38-45). -/
structure ToolEntry (γ : Type) where
  function : γ
  name : String
  description : String
  module : String
deriving DecidableEq, Repr

/-- The registry entry built by `mcp_tool`'s inner `decorator` for handler `f`:
`tool_name = name or f.__name__`,
`tool_description = description or (f.__doc__ or "").strip()`. -/
def mkEntry [PyFunction γ] (name description : Option String) (f : γ) :
    ToolEntry γ :=
  { function := f
    name := pyOrStr name (PyFunction.fname f)
    description := pyOrStr description (pyStrip ((PyFunction.doc f).getD ""))
    module := PyFunction.module f }

/-- The body of `mcp_tool`'s inner `decorator` (lines 32-48): append the entry
to the global registry (state-passed here) and return the original function
unchanged. -/
def decoratorBody [PyFunction γ] (name description : Option String) (f : γ)
    (reg : List (ToolEntry γ)) : List (ToolEntry γ) × γ :=
  (reg ++ [mkEntry name description f], f)

/-- What a call to `mcp_tool` evaluates to: either the inner decorator (factory
usage `@mcp_tool(...)`, where `func is None`), or the already-applied decorator
result (bare usage `@mcp_tool`). -/
inductive McpToolResult (γ : Type) where
  | decorator (k : γ → List (ToolEntry γ) → List (ToolEntry γ) × γ)
  | applied (k : List (ToolEntry γ) → List (ToolEntry γ) × γ)

/-- `mcp_tool(func=None, *, name=None, description=None)`
(src/server/tools/__init__.py, lines 11-54): dispatch on `func is None` to
support both bare-decorator and decorator-factory usage. -/
def mcp_tool [PyFunction γ] (func : Option γ) (name description : Option String) :
    McpToolResult γ :=
  match func with
  | none => .decorator (decoratorBody name description)
  | some f => .applied (decoratorBody name description f)

/-! ## Tool-source modules and the discovery pass -/

/-- A top-level statement of a tool-source module, as far as discovery is
concerned: a handler definition decorated with `@mcp_tool` (bare usage carries
`none`/`none` keywords), a plain un-decorated definition, or a statement that
raises. -/
inductive Stmt (γ : Type) where
  | decorate (name description : Option String) (f : γ)
  | defOnly (f : γ)
  | raiseStmt
deriving DecidableEq, Repr

/-- A tool-source module: its dotted import name and its top-level statements. -/
structure Module (γ : Type) where
  name : String
  body : List (Stmt γ)
deriving DecidableEq, Repr

/-- Execute a module body top to bottom against the registry: each decorated
definition runs `mcp_tool`'s decorator (appending its entry), execution stops
at a raising statement.  Returns the registry afterwards and whether the module
body ran to completion (`false` = the import raised). -/
def execBody [PyFunction γ] :
    List (Stmt γ) → List (ToolEntry γ) → List (ToolEntry γ) × Bool
  | [], reg => (reg, true)
  | .decorate n d f :: rest, reg => execBody rest (decoratorBody n d f reg).1
  | .defOnly _ :: rest, reg => execBody rest reg
  | .raiseStmt :: _, reg => (reg, false)

/-- The registrations a module body performs when executed from scratch, in
order, up to its first raising statement. -/
def bodyRegs [PyFunction γ] : List (Stmt γ) → List (ToolEntry γ)
  | [] => []
  | .decorate n d f :: rest => mkEntry n d f :: bodyRegs rest
  | .defOnly _ :: rest => bodyRegs rest
  | .raiseStmt :: _ => []

/-- Mutable interpreter state seen by discovery: the global `_mcp_tools` list
and the set of module names cached in `sys.modules`. -/
structure DiscoveryState (γ : Type) where
  registry : List (ToolEntry γ)
  imported : List String
deriving DecidableEq, Repr

/-- `importlib.import_module` as called inside `discover_tools`'s `try/except`
(lines 76-81): a cached module is returned without re-executing its body; an
uncached module's body runs (registering tools as a side effect); if the body
raises, the exception is caught by the surrounding `except` and the module is
not cached (CPython removes a failing module from `sys.modules`), with no
rollback of the registrations already performed. -/
def importModule [PyFunction γ] (s : DiscoveryState γ) (m : Module γ) :
    DiscoveryState γ :=
  if m.name ∈ s.imported then s
  else
    { registry := (execBody m.body s.registry).1
      imported :=
        if (execBody m.body s.registry).2 then s.imported ++ [m.name]
        else s.imported }

/-- Core of `discover_tools` (lines 57-86): `_mcp_tools.clear()`, then import
every `.py` module of the tools directory other than `__init__.py`, each
failure on import being caught and logged.  Returns the final registry contents
and the `sys.modules` cache afterwards. -/
def discoverCore [PyFunction γ] (mods : List (Module γ)) (imported : List String) :
    List (ToolEntry γ) × List String :=
  ((mods.foldl importModule ⟨[], imported⟩).registry,
   (mods.foldl importModule ⟨[], imported⟩).imported)

/-- `discover_tools()`: run a discovery pass over the given modules from the
given interpreter state and return `_mcp_tools.copy()` together with the new
state.  (The heap model below makes the `.copy()` explicit.) -/
def discover_tools [PyFunction γ] (mods : List (Module γ)) (s : DiscoveryState γ) :
    List (ToolEntry γ) × DiscoveryState γ :=
  ((discoverCore mods s.imported).1,
   ⟨(discoverCore mods s.imported).1, (discoverCore mods s.imported).2⟩)

/-- `get_discovered_tools()` (lines 89-96): return `_mcp_tools.copy()` without
re-importing anything. -/
def get_discovered_tools [PyFunction γ] (s : DiscoveryState γ) :
    List (ToolEntry γ) × DiscoveryState γ :=
  (s.registry, s)

/-! ## The concrete tool modules of `src/server/tools/` -/

/-- The function objects defined at top level of the server tools package:
`calculation.py` defines `add`, `subtract`, `multiply`, `divide` (all decorated
with bare `@mcp_tool`); `weather.py` defines `get_weather` (decorated with
keyword arguments) and the un-decorated `not_to_be_discovered`. -/
inductive ServerFn where
  | add | subtract | multiply | divide | get_weather | not_to_be_discovered
deriving DecidableEq, Repr

def ServerFn.pyName : ServerFn → String
  | .add => "add"
  | .subtract => "subtract"
  | .multiply => "multiply"
  | .divide => "divide"
  | .get_weather => "get_weather"
  | .not_to_be_discovered => "not_to_be_discovered"

def ServerFn.pyDoc : ServerFn → Option String
  | .add => some "Add two numbers"
  | .subtract => some "Subtract two numbers"
  | .multiply => some "Multiply two numbers"
  | .divide => some "Divide two numbers"
  | .get_weather => some "Get the weather for a given city"
  | .not_to_be_discovered => some "This function is not to be discovered"

def ServerFn.pyModule : ServerFn → String
  | .get_weather => "server.tools.weather"
  | .not_to_be_discovered => "server.tools.weather"
  | _ => "server.tools.calculation"

instance : PyFunction ServerFn where
  fname := ServerFn.pyName
  doc := ServerFn.pyDoc
  module := ServerFn.pyModule

/-- `src/server/tools/calculation.py`: four handlers, each registered with the
bare `@mcp_tool` decorator. -/
def calculationModule : Module ServerFn :=
  { name := "server.tools.calculation"
    body := [.decorate none none .add, .decorate none none .subtract,
             .decorate none none .multiply, .decorate none none .divide] }

/-- `src/server/tools/weather.py`: `get_weather` registered via the decorator
factory with explicit `name`/`description`, and `not_to_be_discovered` defined
without any registration. -/
def weatherModule : Module ServerFn :=
  { name := "server.tools.weather"
    body := [.decorate (some "get_weather")
               (some "Get the weather for a given city") .get_weather,
             .defOnly .not_to_be_discovered] }

/-- The modules `discover_tools` finds in `src/server/tools/` (besides
`__init__.py`), in the directory-listing order assumed throughout
(alphabetical; the membership facts proved below are order-independent). -/
def serverModules : List (Module ServerFn) := [calculationModule, weatherModule]

/-! ## Heap model of Python list aliasing

The global `_mcp_tools` is a Python list object.  `discover_tools` and
`get_discovered_tools` both return `_mcp_tools.copy()` — a fresh list object
with the same contents — so caller-side mutation of the returned list must not
touch the registry.  We model list objects as cells of a tiny address-based
heap (addresses below `next` are allocated). -/

/-- Heap of Python list-of-tool-entry objects. -/
structure PyHeap (γ : Type) where
  mem : Nat → List (ToolEntry γ)
  next : Nat

/-- Contents of the list object at address `a`. -/
def heapRead (h : PyHeap γ) (a : Nat) : List (ToolEntry γ) := h.mem a

/-- In-place mutation of the list object at address `a` (this covers every
mutating list method: `append`, `clear`, item assignment, ...). -/
def heapWrite (h : PyHeap γ) (a : Nat) (v : List (ToolEntry γ)) : PyHeap γ :=
  { mem := fun x => if x = a then v else h.mem x, next := h.next }

/-- Allocation of a fresh list object with contents `v`. -/
def heapAlloc (h : PyHeap γ) (v : List (ToolEntry γ)) : PyHeap γ × Nat :=
  ({ mem := fun x => if x = h.next then v else h.mem x, next := h.next + 1 }, h.next)

/-- `get_discovered_tools()` on the heap: allocate `_mcp_tools.copy()` (the
registry lives at `regAddr`) and return its address; no discovery is re-run
and the registry object is not touched. -/
def get_discovered_tools_heap (h : PyHeap γ) (regAddr : Nat) : PyHeap γ × Nat :=
  heapAlloc h (heapRead h regAddr)

/-- `discover_tools()` on the heap: the pass mutates the registry object in
place (`clear()` followed by the appends — same address throughout), then
allocates and returns `_mcp_tools.copy()`. -/
def discover_tools_heap [PyFunction γ] (mods : List (Module γ)) (h : PyHeap γ)
    (regAddr : Nat) (imported : List String) : PyHeap γ × Nat × List String :=
  ((heapAlloc (heapWrite h regAddr (discoverCore mods imported).1)
      (discoverCore mods imported).1).1,
   (heapAlloc (heapWrite h regAddr (discoverCore mods imported).1)
      (discoverCore mods imported).1).2,
   (discoverCore mods imported).2)

/-! ## Demo tool handlers -/

/-- Outcome of calling a Python function that may raise: a returned value or a
raised exception carrying its message. -/
inductive PyResult (α : Type) where
  | ok (v : α)
  | raised (msg : String)
deriving DecidableEq, Repr

/-- `divide` (src/server/tools/calculation.py, lines 22-27): raises
`ValueError("Cannot divide by zero")` when `b == 0`, otherwise returns `a / b`.
Python floats are modelled by `ℚ`; both agree exactly at the inputs the claims
use. -/
def divide (a b : ℚ) : PyResult ℚ :=
  if b = 0 then .raised "Cannot divide by zero" else .ok (a / b)

/-- The fibonacci loop of `calculate_fibonacci`:
`a, b = 0, 1` then `n` times `sequence.append(a); a, b = b, a + b`. -/
def fibLoop : Nat → Nat → Nat → List Nat
  | 0, _, _ => []
  | k + 1, a, b => a :: fibLoop k b (a + b)

/-- The success payload of `calculate_fibonacci`: the dict fields relevant to
the claims.  The `golden_ratio_approximation` (a float rounded to 6 places)
and `calculated_at` (wall-clock timestamp) fields are omitted: the former is
floating-point formatting, the latter is real time; no claim mentions them. -/
structure FibPayload where
  sequence : List Nat
  count : Nat
  last_number : Nat
  largest_number : Nat
deriving DecidableEq, Repr

/-- Result of a streaming-server tool: either the error dict
`{"error": msg}` or the success payload. -/
inductive FibResult where
  | err (msg : String)
  | ok (payload : FibPayload)
deriving DecidableEq, Repr

/-- `FibResult.isErr r` iff `r` is the `{"error": ...}` payload. -/
def FibResult.isErr : FibResult → Bool
  | .err _ => true
  | .ok _ => false

/-- `calculate_fibonacci` (src/streaming_server/tools/fibonacci.py, lines
8-34): rejects `n <= 0` and `n > 50` with an error dict, otherwise returns the
sequence together with `count`, `last_number` (`sequence[-1] if sequence else
0`) and `largest_number` (`max(sequence) if sequence else 0`).  The
`await asyncio.sleep(0.01)` per iteration only suspends and is not modelled. -/
def calculate_fibonacci (n : Int) : FibResult :=
  if n ≤ 0 then .err "n must be positive"
  else if n > 50 then .err "n too large (max 50)"
  else
    let sequence := fibLoop n.toNat 0 1
    .ok { sequence := sequence
          count := sequence.length
          last_number := (sequence.getLast?).getD 0
          largest_number := sequence.foldl max 0 }

/-! ## The tool-call orchestrator (`src/client/openai_client.py`)

`MCPClient.process_query` talks to two external collaborators: the MCP session
(`list_tools`, `call_tool`) and the OpenAI completion endpoint
(`chat.completions.create`).  Both are modelled as oracle functions passed in;
`json.loads` (stdlib) is likewise a parameter.  Type parameters: `ρ` is the
structured-text (JSON string) argument encoding produced by the model, `σ` the
parsed key-value payload, `π` the shape of a tool's input schema.  The calls
the method makes are recorded in an event trace, in execution order. -/

/-- One tool-call request inside a completion response:
`tool_call.id`, `tool_call.function.name`, `tool_call.function.arguments`. -/
structure ToolCallReq (ρ : Type) where
  id : String
  fname : String
  fargs : ρ
deriving DecidableEq, Repr

/-- The message of a completion response (`response.choices[0].message`):
`content` may be `None`, `tool_calls` may be `None` or a list (Python
truthiness treats `None` and `[]` alike). -/
structure AssistantMessage (ρ : Type) where
  content : Option String
  tool_calls : Option (List (ToolCallReq ρ))
deriving DecidableEq, Repr

/-- A message of the conversation list built by `process_query`: the user dict,
the assistant message object appended verbatim, or a tool-result dict
`{"role": "tool", "tool_call_id": ..., "content": ...}`. -/
inductive ChatMessage (ρ : Type) where
  | user (content : String)
  | assistant (m : AssistantMessage ρ)
  | tool (tool_call_id : String) (content : String)
deriving DecidableEq, Repr

/-- A tool as the MCP session reports it (`tool.name`, `tool.description`,
`tool.inputSchema`). -/
structure MCPTool (π : Type) where
  name : String
  description : String
  inputSchema : π
deriving DecidableEq, Repr

/-- A tool translated to OpenAI's function-calling schema by `get_mcp_tools`:
`{"type": "function", "function": {"name", "description", "parameters"}}`. -/
structure OpenAIToolSchema (π : Type) where
  type : String
  name : String
  description : String
  parameters : π
deriving DecidableEq, Repr

/-- `MCPClient.get_mcp_tools` (lines 85-103): fetch the session's tool list and
reshape each entry for the OpenAI API. -/
def get_mcp_tools (tools : List (MCPTool π)) : List (OpenAIToolSchema π) :=
  tools.map fun t => ⟨"function", t.name, t.description, t.inputSchema⟩

/-- The externally observable calls `process_query` makes, in order. -/
inductive Event (ρ σ π : Type) where
  | listTools
  | completionCall (messages : List (ChatMessage ρ))
      (tools : List (OpenAIToolSchema π)) (tool_choice : String)
  | toolCall (name : String) (args : σ)
deriving DecidableEq, Repr

/-- The body of the `for tool_call in assistant_message.tool_calls` loop
(lines 150-164): parse the arguments, call the tool through the session, and
append the tool-role message tagged with the request's id.  The second
component accumulates the trace of session tool calls. -/
def toolLoopStep (callTool : String → σ → String) (jsonLoads : ρ → σ)
    (acc : List (ChatMessage ρ) × List (Event ρ σ π)) (tc : ToolCallReq ρ) :
    List (ChatMessage ρ) × List (Event ρ σ π) :=
  let args := jsonLoads tc.fargs
  let result := callTool tc.fname args
  (acc.1 ++ [.tool tc.id result], acc.2 ++ [.toolCall tc.fname args])

/-- `MCPClient.process_query` (lines 105-177).  Oracles: `listTools` is what
`session.list_tools()` reports, `complete messages tools choice` is the message
of `chat.completions.create(model, messages, tools, tool_choice=choice)` (the
model name is fixed in the client and elided), `callTool name args` is
`session.call_tool(name, arguments=args).content[0].text`, and `jsonLoads` is
`json.loads`.  Returns the answer (the relevant response's `content`) and the
trace of external calls made. -/
def process_query
    (listTools : List (MCPTool π))
    (complete : List (ChatMessage ρ) → List (OpenAIToolSchema π) → String →
      AssistantMessage ρ)
    (callTool : String → σ → String)
    (jsonLoads : ρ → σ)
    (query : String) : Option String × List (Event ρ σ π) :=
  let tools := get_mcp_tools listTools
  let assistant_message := complete [.user query] tools "auto"
  let messages : List (ChatMessage ρ) := [.user query, .assistant assistant_message]
  match assistant_message.tool_calls with
  | some (tc :: tcs) =>
      let looped :=
        (tc :: tcs).foldl (toolLoopStep callTool jsonLoads) (messages, [])
      let final_response := complete looped.1 tools "none"
      (final_response.content,
       [.listTools, .completionCall [.user query] tools "auto"] ++ looped.2 ++
         [.completionCall looped.1 tools "none"])
  | _ =>
      (assistant_message.content,
       [.listTools, .completionCall [.user query] tools "auto"])

/-! ## Helper lemmas (shared) -/

/-- Whether a module body runs to completion without raising. -/
def bodyOk [PyFunction γ] : List (Stmt γ) → Bool
  | [] => true
  | .raiseStmt :: _ => false
  | .decorate _ _ _ :: rest => bodyOk rest
  | .defOnly _ :: rest => bodyOk rest

theorem execBody_eq [PyFunction γ] (body : List (Stmt γ))
    (reg : List (ToolEntry γ)) :
    execBody body reg = (reg ++ bodyRegs body, bodyOk body) := by
  induction body generalizing reg with
  | nil => simp [execBody, bodyRegs, bodyOk]
  | cons s rest ih =>
    cases s with
    | decorate n d f =>
      simp [execBody, bodyRegs, bodyOk, decoratorBody, ih]
    | defOnly f => simp [execBody, bodyRegs, bodyOk, ih]
    | raiseStmt => simp [execBody, bodyRegs, bodyOk]

theorem foldl_importModule_registry [PyFunction γ] (mods : List (Module γ))
    (reg : List (ToolEntry γ)) (imp : List String)
    (hnd : (mods.map Module.name).Nodup)
    (hdis : ∀ m ∈ mods, m.name ∉ imp) :
    (mods.foldl importModule ⟨reg, imp⟩).registry
      = reg ++ mods.flatMap (fun m => bodyRegs m.body) := by
  induction mods generalizing reg imp with
  | nil => simp
  | cons m ms ih =>
    have hm : m.name ∉ imp := hdis m (List.mem_cons_self m ms)
    have hstep : importModule ⟨reg, imp⟩ m
        = ⟨reg ++ bodyRegs m.body,
           if bodyOk m.body then imp ++ [m.name] else imp⟩ := by
      simp [importModule, hm, execBody_eq]
    have hnd' : (ms.map Module.name).Nodup := (List.nodup_cons.mp hnd).2
    have hne : ∀ m' ∈ ms, m'.name ≠ m.name := by
      intro m' hm'
      intro hc
      exact (List.nodup_cons.mp hnd).1 (hc ▸ List.mem_map_of_mem Module.name hm')
    have hdis' : ∀ m' ∈ ms,
        m'.name ∉ (if bodyOk m.body then imp ++ [m.name] else imp) := by
      intro m' hm'
      by_cases hok : bodyOk m.body
      · simp [hok, List.mem_append]
        exact ⟨hdis m' (List.mem_cons_of_mem m hm'), hne m' hm'⟩
      · simp [hok]
        exact hdis m' (List.mem_cons_of_mem m hm')
    calc ((m :: ms).foldl importModule ⟨reg, imp⟩).registry
        = (ms.foldl importModule (importModule ⟨reg, imp⟩ m)).registry := by
          simp [List.foldl_cons]
      _ = reg ++ bodyRegs m.body ++ ms.flatMap (fun m' => bodyRegs m'.body) := by
          rw [hstep]
          exact ih (reg ++ bodyRegs m.body) _ hnd' hdis'
      _ = reg ++ (m :: ms).flatMap (fun m' => bodyRegs m'.body) := by
          simp [List.flatMap_cons, List.append_assoc]

theorem toolLoop_foldl (callTool : String → σ → String) (jsonLoads : ρ → σ)
    (tcs : List (ToolCallReq ρ)) (m0 : List (ChatMessage ρ))
    (e0 : List (Event ρ σ π)) :
    tcs.foldl (toolLoopStep callTool jsonLoads) (m0, e0)
      = (m0 ++ tcs.map (fun tc =>
            ChatMessage.tool tc.id (callTool tc.fname (jsonLoads tc.fargs))),
         e0 ++ tcs.map (fun tc =>
            Event.toolCall tc.fname (jsonLoads tc.fargs))) := by
  induction tcs generalizing m0 e0 with
  | nil => simp
  | cons tc rest ih =>
    simp only [List.foldl_cons, toolLoopStep, List.map_cons]
    rw [ih]
    simp [List.append_assoc]

/-! ## Claim theorems -/

/-- C5: `mcp_tool` works both as a bare decorator (`func` supplied) and as a
parameterized decorator factory (`func is None`, returning the inner
decorator); the registered descriptor's name defaults to the handler's
`__name__` and its description to the handler's `__doc__` stripped of
surrounding whitespace when not supplied; and registration appends exactly one
entry and returns the original handler unchanged, with its original callable
behaviour. -/
theorem mcp_tool_contract (α β : Type) (f : PyFunc α β) (n d : Option String)
    (reg : List (ToolEntry (PyFunc α β))) :
    mcp_tool (γ := PyFunc α β) none n d
        = McpToolResult.decorator (decoratorBody n d)
    ∧ mcp_tool (some f) n d = McpToolResult.applied (decoratorBody n d f)
    ∧ decoratorBody none none f reg
        = (reg ++ [{ function := f, name := f.fname,
                     description := pyStrip (f.doc.getD ""),
                     module := f.module }], f)
    ∧ (decoratorBody n d f reg).2 = f
    ∧ ((decoratorBody n d f reg).2).call = f.call :=
  ⟨rfl, rfl, rfl, rfl, rfl⟩

/-- C8 counterexample: `divide(a=4, b=0)` raises
`ValueError("Cannot divide by zero")` — the error is a raised exception, not a
returned structured result carrying an `error` field, contradicting the
claim's second half. -/
theorem divide_zero_raises_not_structured :
    divide 4 0 = PyResult.raised "Cannot divide by zero" := by
  simp [divide]

/-- C8 (amended): `divide(a=9, b=3)` returns the numeric result `3`, and
`divide(a=4, b=0)` yields an explicit error condition rather than a numeric
result — but as a raised `ValueError`, not as a structured result with an
`error` field. -/
theorem divide_behavior :
    divide 9 3 = PyResult.ok 3
    ∧ divide 4 0 = PyResult.raised "Cannot divide by zero" := by
  constructor
  · simp [divide]
    norm_num
  · simp [divide]

/-- C9: `calculate_fibonacci(n=10)` yields exactly the length-10 sequence
`0,1,1,2,3,5,8,13,21,34` with `count = 10` and `last_number = 34`, and for
every `n` it returns the `{"error": ...}` payload exactly when `n ≤ 0` or
`n > 50`. -/
theorem calculate_fibonacci_behavior :
    calculate_fibonacci 10
      = FibResult.ok { sequence := [0, 1, 1, 2, 3, 5, 8, 13, 21, 34],
                       count := 10, last_number := 34, largest_number := 34 }
    ∧ ∀ n : Int, (calculate_fibonacci n).isErr
        = (decide (n ≤ 0) || decide (50 < n)) := by
  constructor
  · decide
  · intro n
    by_cases h1 : n ≤ 0
    · simp [calculate_fibonacci, h1, FibResult.isErr]
    · by_cases h2 : n > 50
      · simp [calculate_fibonacci, h1, h2, FibResult.isErr]
      · simp [calculate_fibonacci, h1, h2, FibResult.isErr]

/-- C9 witness: at the in-range input 10 the exact payload comes out, and the
out-of-range inputs 0 and 51 are rejected with an error payload. -/
theorem calculate_fibonacci_behavior_witness :
    calculate_fibonacci 10
      = FibResult.ok { sequence := [0, 1, 1, 2, 3, 5, 8, 13, 21, 34],
                       count := 10, last_number := 34, largest_number := 34 }
    ∧ (calculate_fibonacci 0).isErr = true
    ∧ (calculate_fibonacci 51).isErr = true :=
  ⟨calculate_fibonacci_behavior.1,
   (calculate_fibonacci_behavior.2 0).trans (by decide),
   (calculate_fibonacci_behavior.2 51).trans (by decide)⟩

/-- C10: after a discovery pass over the server tools package, the registry
holds exactly the descriptors created by the registration call sites — the
four bare-decorated calculator handlers and `get_weather` — and the
undecorated `not_to_be_discovered` of `weather.py` appears neither in the
`discover_tools()` result nor in the `get_discovered_tools()` snapshot. -/
theorem undecorated_not_registered :
    (discover_tools serverModules ⟨[], []⟩).1
      = [⟨.add, "add", "Add two numbers", "server.tools.calculation"⟩,
         ⟨.subtract, "subtract", "Subtract two numbers",
          "server.tools.calculation"⟩,
         ⟨.multiply, "multiply", "Multiply two numbers",
          "server.tools.calculation"⟩,
         ⟨.divide, "divide", "Divide two numbers", "server.tools.calculation"⟩,
         ⟨.get_weather, "get_weather", "Get the weather for a given city",
          "server.tools.weather"⟩]
    ∧ ((discover_tools serverModules ⟨[], []⟩).1).map ToolEntry.name
        = ["add", "subtract", "multiply", "divide", "get_weather"]
    ∧ "not_to_be_discovered"
        ∉ ((discover_tools serverModules ⟨[], []⟩).1).map ToolEntry.name
    ∧ (get_discovered_tools (discover_tools serverModules ⟨[], []⟩).2).1
        = (discover_tools serverModules ⟨[], []⟩).1 := by
  refine ⟨by decide, by decide, by decide, rfl⟩

/-- C4 (code bug): in one interpreter process, the first `discover_tools()`
call over the server tools modules registers all 5 tools, but a second call in
succession returns the empty list: the registry is cleared while
`importlib.import_module` returns the `sys.modules`-cached modules without
re-executing their decorators, so nothing is re-registered — the final content
is not idempotent and its size (0) differs from the number of registration
call sites (5). -/
theorem discover_twice_empties_registry :
    ((discover_tools serverModules ⟨[], []⟩).1).length = 5
    ∧ (discover_tools serverModules
        (discover_tools serverModules ⟨[], []⟩).2).1 = [] := by
  refine ⟨by decide, by decide⟩

/-- Modelled from the spec: the registry itself has no lookup operation; the
serving layer (`src/server/main.py`, lines 35-41) hands the discovered list to
FastMCP's `add_tool` sequentially, so of several same-named entries the one a
later name lookup resolves to is the last registered; spec §9 directs
implementers to adopt exactly this last-registration-wins policy. -/
def lookupLast (reg : List (ToolEntry γ)) (nm : String) : Option (ToolEntry γ) :=
  (reg.filter (fun e => e.name = nm)).getLast?

/-- A hypothetical tool module registering two different handlers under the
same explicit name `"dup"`. -/
def dupModule : Module ServerFn :=
  { name := "server.tools.dup"
    body := [.decorate (some "dup") none .add,
             .decorate (some "dup") none .subtract] }

/-- C6 counterexample: a discovery pass over a module that registers the name
`"dup"` twice produces a registry snapshot whose name list is
`["dup", "dup"]` — tool names are not pairwise unique; the registry appends
without deduplication. -/
theorem registry_names_not_unique :
    (((discover_tools [dupModule] ⟨[], []⟩).1).map ToolEntry.name
        = ["dup", "dup"])
    ∧ ¬ (((discover_tools [dupModule] ⟨[], []⟩).1).map ToolEntry.name).Nodup := by
  refine ⟨by decide, by decide⟩

/-- C6 (amended): a registry snapshot may contain several entries with the
same name — registering a name twice in one pass keeps both descriptors, in
registration order — and a lookup following the serving layer's sequential
registration (last registration wins) resolves the name to a single,
deterministically-chosen descriptor: the last one registered. -/
theorem duplicate_name_last_wins (f g : ServerFn) (nm : String)
    (d1 d2 : Option String) (hnm : nm ≠ "") :
    (discover_tools
        [⟨"server.tools.dup",
          [.decorate (some nm) d1 f, .decorate (some nm) d2 g]⟩]
        ⟨[], []⟩).1
      = [mkEntry (some nm) d1 f, mkEntry (some nm) d2 g]
    ∧ ((discover_tools
        [⟨"server.tools.dup",
          [.decorate (some nm) d1 f, .decorate (some nm) d2 g]⟩]
        ⟨[], []⟩).1).map ToolEntry.name = [nm, nm]
    ∧ lookupLast
        (discover_tools
          [⟨"server.tools.dup",
            [.decorate (some nm) d1 f, .decorate (some nm) d2 g]⟩]
          ⟨[], []⟩).1 nm
      = some (mkEntry (some nm) d2 g) := by
  have hreg : (discover_tools
      [(⟨"server.tools.dup",
        [.decorate (some nm) d1 f, .decorate (some nm) d2 g]⟩ : Module ServerFn)]
      ⟨[], []⟩).1
      = [mkEntry (some nm) d1 f, mkEntry (some nm) d2 g] := by
    simp [discover_tools, discoverCore, importModule, execBody, decoratorBody]
  have hname1 : (mkEntry (some nm) d1 f).name = nm := by
    simp [mkEntry, pyOrStr, hnm]
  have hname2 : (mkEntry (some nm) d2 g).name = nm := by
    simp [mkEntry, pyOrStr, hnm]
  refine ⟨hreg, ?_, ?_⟩
  · rw [hreg]
    simp [hname1, hname2]
  · rw [hreg]
    simp [lookupLast, hname1, hname2]

/-- C6 witness: the amended behaviour at the concrete pass registering
`add` then `subtract` both under the name `"dup"`. -/
theorem duplicate_name_last_wins_witness :
    ("dup" : String) ≠ ""
    ∧ (discover_tools [dupModule] ⟨[], []⟩).1
        = [mkEntry (some "dup") none ServerFn.add,
           mkEntry (some "dup") none ServerFn.subtract]
    ∧ ((discover_tools [dupModule] ⟨[], []⟩).1).map ToolEntry.name
        = ["dup", "dup"]
    ∧ lookupLast (discover_tools [dupModule] ⟨[], []⟩).1 "dup"
        = some (mkEntry (some "dup") none ServerFn.subtract) :=
  ⟨by decide,
   (duplicate_name_last_wins ServerFn.add ServerFn.subtract "dup" none none
      (by decide)).1,
   (duplicate_name_last_wins ServerFn.add ServerFn.subtract "dup" none none
      (by decide)).2.1,
   (duplicate_name_last_wins ServerFn.add ServerFn.subtract "dup" none none
      (by decide)).2.2⟩

/-- C7: both `discover_tools()` and the `get_discovered_tools()` snapshot
return a defensive copy of the registry list: the returned list is a fresh
object distinct from the registry, holding the registry's contents, and any
in-place mutation the caller performs on it leaves the registry object's
contents unchanged; the snapshot allocates the copy without re-running
discovery or modifying the registry. -/
theorem registry_defensive_copy (γ : Type) [PyFunction γ]
    (mods : List (Module γ)) (h : PyHeap γ) (regAddr : Nat)
    (imported : List String) (v w : List (ToolEntry γ))
    (hvalid : regAddr < h.next) :
    (get_discovered_tools_heap h regAddr).2 ≠ regAddr
    ∧ heapRead (get_discovered_tools_heap h regAddr).1 regAddr
        = heapRead h regAddr
    ∧ heapRead (get_discovered_tools_heap h regAddr).1
        (get_discovered_tools_heap h regAddr).2 = heapRead h regAddr
    ∧ heapRead
        (heapWrite (get_discovered_tools_heap h regAddr).1
          (get_discovered_tools_heap h regAddr).2 v) regAddr
        = heapRead h regAddr
    ∧ (discover_tools_heap mods h regAddr imported).2.1 ≠ regAddr
    ∧ heapRead (discover_tools_heap mods h regAddr imported).1 regAddr
        = (discoverCore mods imported).1
    ∧ heapRead (discover_tools_heap mods h regAddr imported).1
        (discover_tools_heap mods h regAddr imported).2.1
        = (discoverCore mods imported).1
    ∧ heapRead
        (heapWrite (discover_tools_heap mods h regAddr imported).1
          (discover_tools_heap mods h regAddr imported).2.1 w) regAddr
        = (discoverCore mods imported).1 := by
  have hne : regAddr ≠ h.next := Nat.ne_of_lt hvalid
  refine ⟨Ne.symm hne, ?_, ?_, ?_, Ne.symm hne, ?_, ?_, ?_⟩ <;>
    simp [get_discovered_tools_heap, discover_tools_heap, heapAlloc,
      heapRead, heapWrite, hne]

/-- C7 witness: the defensive-copy properties at a concrete one-cell heap
whose registry (address 0) is empty, with the discovery pass over the server
tool modules and a caller that overwrites the returned copy with a singleton
list. -/
theorem registry_defensive_copy_witness :
    (0 : Nat) < (1 : Nat)
    ∧ ((get_discovered_tools_heap (⟨fun _ => [], 1⟩ : PyHeap ServerFn) 0).2 ≠ 0
    ∧ heapRead (get_discovered_tools_heap (⟨fun _ => [], 1⟩ : PyHeap ServerFn) 0).1 0
        = heapRead (⟨fun _ => [], 1⟩ : PyHeap ServerFn) 0
    ∧ heapRead (get_discovered_tools_heap (⟨fun _ => [], 1⟩ : PyHeap ServerFn) 0).1
        (get_discovered_tools_heap (⟨fun _ => [], 1⟩ : PyHeap ServerFn) 0).2
        = heapRead (⟨fun _ => [], 1⟩ : PyHeap ServerFn) 0
    ∧ heapRead
        (heapWrite (get_discovered_tools_heap (⟨fun _ => [], 1⟩ : PyHeap ServerFn) 0).1
          (get_discovered_tools_heap (⟨fun _ => [], 1⟩ : PyHeap ServerFn) 0).2
          [mkEntry none none ServerFn.add]) 0
        = heapRead (⟨fun _ => [], 1⟩ : PyHeap ServerFn) 0
    ∧ (discover_tools_heap serverModules (⟨fun _ => [], 1⟩ : PyHeap ServerFn) 0 []).2.1 ≠ 0
    ∧ heapRead (discover_tools_heap serverModules (⟨fun _ => [], 1⟩ : PyHeap ServerFn) 0 []).1 0
        = (discoverCore serverModules []).1
    ∧ heapRead (discover_tools_heap serverModules (⟨fun _ => [], 1⟩ : PyHeap ServerFn) 0 []).1
        (discover_tools_heap serverModules (⟨fun _ => [], 1⟩ : PyHeap ServerFn) 0 []).2.1
        = (discoverCore serverModules []).1
    ∧ heapRead
        (heapWrite (discover_tools_heap serverModules (⟨fun _ => [], 1⟩ : PyHeap ServerFn) 0 []).1
          (discover_tools_heap serverModules (⟨fun _ => [], 1⟩ : PyHeap ServerFn) 0 []).2.1
          []) 0
        = (discoverCore serverModules []).1) :=
  ⟨by decide,
   registry_defensive_copy ServerFn serverModules ⟨fun _ => [], 1⟩ 0 []
     [mkEntry none none ServerFn.add] [] (by decide)⟩

/-- C3: a discovery pass never aborts: for every module list (modules not yet
cached), the pass is a total function whose resulting registry is exactly the
concatenation, module by module in order, of the registrations each module
performs up to its first raising statement (`bodyRegs`).  In particular a
module that raises on import has its exception caught, contributes exactly the
tools it registered before raising (no rollback), and leaves every sibling
module's tools registered. -/
theorem discover_isolates_failures (γ : Type) [PyFunction γ]
    (mods : List (Module γ)) (s : DiscoveryState γ)
    (hnd : (mods.map Module.name).Nodup)
    (hdis : ∀ m ∈ mods, m.name ∉ s.imported) :
    (discover_tools mods s).1 = mods.flatMap (fun m => bodyRegs m.body) := by
  have := foldl_importModule_registry mods [] s.imported hnd hdis
  simpa [discover_tools, discoverCore] using this

/-- The three modules of the C3 witness scenario: module `a` registers one
tool, module `f` registers one tool and then raises before a second
registration, module `b` registers one tool. -/
def wFailMods : List (Module ServerFn) :=
  [⟨"server.tools.a", [.decorate none none .add]⟩,
   ⟨"server.tools.f",
    [.decorate none none .subtract, .raiseStmt, .decorate none none .multiply]⟩,
   ⟨"server.tools.b", [.decorate none none .divide]⟩]

/-- C3 witness: with a raising middle module, discovery still registers the
first module's tool, the failing module's pre-raise tool (but not the one
after the raise), and the sibling module's tool, in order. -/
theorem discover_isolates_failures_witness :
    ((wFailMods.map Module.name).Nodup)
    ∧ (∀ m ∈ wFailMods, m.name ∉ ([] : List String))
    ∧ (discover_tools wFailMods ⟨[], []⟩).1
        = [mkEntry none none ServerFn.add, mkEntry none none ServerFn.subtract,
           mkEntry none none ServerFn.divide] :=
  ⟨by decide, by decide,
   (discover_isolates_failures ServerFn wFailMods ⟨[], []⟩ (by decide)
      (by decide)).trans (by decide)⟩

/-- C1: whenever the first-round completion response carries tool-call
requests, `process_query` invokes each requested tool through the session
exactly once, in request order, with the parsed arguments; appends for each a
tool-role message tagged with the request's `id`; makes a second completion
call with `tool_choice="none"` whose message list is the user message, the
assistant message, and one tool message per tool call (length
`2 + number_of_tool_calls`); and returns the `content` of that second
response.  The event trace is the complete list of external calls, in order. -/
theorem process_query_tool_round (ρ σ π : Type) (listTools : List (MCPTool π))
    (complete : List (ChatMessage ρ) → List (OpenAIToolSchema π) → String →
      AssistantMessage ρ)
    (callTool : String → σ → String) (jsonLoads : ρ → σ) (query : String)
    (tcs : List (ToolCallReq ρ))
    (h1 : (complete [ChatMessage.user query] (get_mcp_tools listTools)
            "auto").tool_calls = some tcs)
    (h2 : tcs ≠ []) :
    process_query listTools complete callTool jsonLoads query
      = ((complete
            ([ChatMessage.user query,
              ChatMessage.assistant
                (complete [ChatMessage.user query] (get_mcp_tools listTools)
                  "auto")]
              ++ tcs.map (fun tc => ChatMessage.tool tc.id
                    (callTool tc.fname (jsonLoads tc.fargs))))
            (get_mcp_tools listTools) "none").content,
         [Event.listTools,
          Event.completionCall [ChatMessage.user query]
            (get_mcp_tools listTools) "auto"]
           ++ tcs.map (fun tc =>
                Event.toolCall tc.fname (jsonLoads tc.fargs))
           ++ [Event.completionCall
                ([ChatMessage.user query,
                  ChatMessage.assistant
                    (complete [ChatMessage.user query]
                      (get_mcp_tools listTools) "auto")]
                  ++ tcs.map (fun tc => ChatMessage.tool tc.id
                        (callTool tc.fname (jsonLoads tc.fargs))))
                (get_mcp_tools listTools) "none"])
    ∧ ([ChatMessage.user query,
        ChatMessage.assistant
          (complete [ChatMessage.user query] (get_mcp_tools listTools)
            "auto")]
         ++ tcs.map (fun (tc : ToolCallReq ρ) => ChatMessage.tool tc.id
              (callTool tc.fname (jsonLoads tc.fargs)))).length
        = 2 + tcs.length := by
  obtain ⟨tc, rest, rfl⟩ : ∃ a l, tcs = a :: l := by
    cases tcs with
    | nil => exact absurd rfl h2
    | cons a l => exact ⟨a, l, rfl⟩
  refine ⟨?_, ?_⟩
  · unfold process_query
    simp only []
    rw [h1]
    simp only [toolLoop_foldl]
    simp
  · simp
    omega

/-- C2: whenever the first-round completion response carries no tool-call
requests (`tool_calls` is `None` or the empty list), `process_query` returns
exactly that response's `content` and the only external calls are the session
tool listing and a single completion call with `tool_choice="auto"` — no
second round and no tool invocation. -/
theorem process_query_direct_answer (ρ σ π : Type) (listTools : List (MCPTool π))
    (complete : List (ChatMessage ρ) → List (OpenAIToolSchema π) → String →
      AssistantMessage ρ)
    (callTool : String → σ → String) (jsonLoads : ρ → σ) (query : String)
    (h : (complete [ChatMessage.user query] (get_mcp_tools listTools)
            "auto").tool_calls = none
         ∨ (complete [ChatMessage.user query] (get_mcp_tools listTools)
            "auto").tool_calls = some []) :
    process_query listTools complete callTool jsonLoads query
      = ((complete [ChatMessage.user query] (get_mcp_tools listTools)
            "auto").content,
         [Event.listTools,
          Event.completionCall [ChatMessage.user query]
            (get_mcp_tools listTools) "auto"]) := by
  unfold process_query
  simp only []
  rcases h with h | h <;> rw [h]

/-- A concrete session tool list for the orchestrator witnesses: the `add`
tool as the server reports it. -/
def wListTools : List (MCPTool String) :=
  [⟨"add", "Add two numbers", "object"⟩]

/-- The concrete first-round tool-call request of the C1 witness:
`{name: "add", arguments: {a: 2, b: 3}}` with correlation id `call_1`
(the raw argument text is opaque to the orchestrator). -/
def wToolCall : ToolCallReq String := ⟨"call_1", "add", "a=2,b=3"⟩

/-- A deterministic completion-endpoint oracle for the C1 witness: round 1
(`tool_choice="auto"`) requests the single `add` tool call, round 2 answers
in text. -/
def wComplete :
    List (ChatMessage String) → List (OpenAIToolSchema String) → String →
      AssistantMessage String :=
  fun _ _ choice =>
    if choice = "auto" then { content := none, tool_calls := some [wToolCall] }
    else { content := some "2 plus 3 is 5", tool_calls := none }

/-- A session `call_tool` oracle answering `5`. -/
def wCallTool : String → String → String := fun _ _ => "5"

/-- C1 witness: on the concrete oracles, `process_query` calls `add` exactly
once with the parsed arguments, appends the tool message tagged `call_1`,
makes the second completion call with three messages (2 + 1 tool call) and
`tool_choice="none"`, and returns that second response's text. -/
theorem process_query_tool_round_witness :
    process_query wListTools wComplete wCallTool id "what is 2 + 3?"
      = (some "2 plus 3 is 5",
         [Event.listTools,
          Event.completionCall [ChatMessage.user "what is 2 + 3?"]
            [⟨"function", "add", "Add two numbers", "object"⟩] "auto",
          Event.toolCall "add" "a=2,b=3",
          Event.completionCall
            [ChatMessage.user "what is 2 + 3?",
             ChatMessage.assistant { content := none,
                                     tool_calls := some [wToolCall] },
             ChatMessage.tool "call_1" "5"]
            [⟨"function", "add", "Add two numbers", "object"⟩] "none"])
    ∧ ([ChatMessage.user "what is 2 + 3?",
        ChatMessage.assistant { content := none, tool_calls := some [wToolCall] },
        ChatMessage.tool "call_1" "5"] : List (ChatMessage String)).length
        = 2 + 1 :=
  ⟨((process_query_tool_round String String String wListTools wComplete
      wCallTool id "what is 2 + 3?" [wToolCall] rfl (by decide)).1).trans
    (by decide),
   by decide⟩

/-- A completion-endpoint oracle answering directly, with no tool calls, for
the C2 witness. -/
def wCompleteDirect :
    List (ChatMessage String) → List (OpenAIToolSchema String) → String →
      AssistantMessage String :=
  fun _ _ _ => { content := some "Hello!", tool_calls := none }

/-- C2 witness: on an oracle that never requests tool calls, `process_query`
returns that response's text and the trace holds exactly one completion call
and no tool invocation. -/
theorem process_query_direct_answer_witness :
    process_query ([] : List (MCPTool String)) wCompleteDirect
        (fun _ _ => "") (id : String → String) "hi"
      = (some "Hello!",
         [Event.listTools,
          Event.completionCall [ChatMessage.user "hi"] [] "auto"]) :=
  (process_query_direct_answer String String String [] wCompleteDirect
      (fun _ _ => "") id "hi" (Or.inl rfl)).trans (by decide)

end MCPDemo
